import Mathlib

/-!
Verification development for the OpenXR CloudXR client demo
(`app/src/main/src/openxr_program.cpp`).

The per-tick render and input logic is embedded shallowly: every external
runtime call (`xrLocateViews`, `xrLocateSpace`, `LatchFrame`, action-state
queries, the event queue) is represented by its returned data, supplied as an
input to the embedded function, and the function computes exactly what the
source computes from those results.  Float-valued quantities are modelled as
rationals; handles as naturals (0 = `XR_NULL_HANDLE`).
-/

namespace OpenXrClient

/-- XrVector3f; float components modelled as rationals. -/
structure XrVector3f where
  x : Rat
  y : Rat
  z : Rat
deriving DecidableEq

/-- XrQuaternionf; float components modelled as rationals. -/
structure XrQuaternionf where
  x : Rat
  y : Rat
  z : Rat
  w : Rat
deriving DecidableEq

/-- XrPosef: orientation plus position. -/
structure XrPosef where
  orientation : XrQuaternionf
  position : XrVector3f
deriving DecidableEq

/-- XrFovf: the four field-of-view half angles. -/
structure XrFovf where
  angleLeft : Rat
  angleRight : Rat
  angleUp : Rat
  angleDown : Rat
deriving DecidableEq

/-- XrView as filled in by `xrLocateViews`: per-eye pose and fov. -/
structure XrView where
  pose : XrPosef
  fov : XrFovf
deriving DecidableEq

/-- The CloudXR 3x4 row-major pose matrix carried by a latched frame. -/
structure cxrMatrix34 where
  m00 : Rat
  m01 : Rat
  m02 : Rat
  m03 : Rat
  m10 : Rat
  m11 : Rat
  m12 : Rat
  m13 : Rat
  m20 : Rat
  m21 : Rat
  m22 : Rat
  m23 : Rat
deriving DecidableEq

/-- One eye's video frame inside `cxrFramesLatched`; the texture handle is
the only field the render loop reads. -/
structure cxrVideoFrame where
  texture : Nat
deriving DecidableEq

/-- `cxrFramesLatched`: the pose matrix the remote renderer used plus the two
per-eye frames. -/
structure cxrFramesLatched where
  poseMatrix : cxrMatrix34
  frame0 : cxrVideoFrame
  frame1 : cxrVideoFrame
deriving DecidableEq

/-- Array access `framesLatched.frames[i]`. -/
def cxrFramesLatched.frames (fl : cxrFramesLatched) (i : Fin 2) : cxrVideoFrame :=
  if i = 0 then fl.frame0 else fl.frame1

/-- The zero-initialised `cxrFramesLatched framesLatched{}` local. -/
def cxrFramesLatched.zeroInit : cxrFramesLatched :=
  { poseMatrix := ⟨0, 0, 0, 0, 0, 0, 0, 0, 0, 0, 0, 0⟩
    frame0 := ⟨0⟩
    frame1 := ⟨0⟩ }

/-- The validity bits of the `XrViewState` returned by `xrLocateViews`. -/
structure ViewState where
  positionValid : Bool
  orientationValid : Bool
deriving DecidableEq

/-- Result of one `xrLocateSpace` call: whether the result code was an
unqualified success (`XR_UNQUALIFIED_SUCCESS(res)`), the two location
validity flags, and the located pose. -/
structure SpaceLocation where
  unqualifiedSuccess : Bool
  positionValid : Bool
  orientationValid : Bool
  pose : XrPosef
deriving DecidableEq

/-- Events emitted while executing one `RenderFrame`/`RenderLayer` pass, in
program order. -/
inductive REvent where
  | waitFrame
  | beginFrame
  | logHandLocateFail (hand : Fin 2)
  | setSenserPoseState (headPose : XrPosef) (handPoseCount : Nat)
  | latchFrame
  | logNoFrame
  | acquireImage (eye : Fin 2)
  | waitImage (eye : Fin 2)
  | renderView (eye : Fin 2) (texture : Nat)
  | releaseImage (eye : Fin 2)
  | releaseFrame
  | endFrame
deriving DecidableEq

/-- Recogniser for the `releaseFrame` event. -/
def REvent.isReleaseFrame : REvent → Bool
  | .releaseFrame => true
  | _ => false

/-- One submitted `XrCompositionLayerProjectionView`: the stamped pose, the
fov copied from the located view, and which eye's swapchain backs it. -/
structure CompositionLayerProjectionView where
  pose : XrPosef
  fov : XrFovf
  swapchainEye : Fin 2
deriving DecidableEq

/-- The external query results consumed by one `RenderLayer` call. -/
structure RenderLayerInput where
  /-- `m_views` as filled by `xrLocateViews` for the predicted display time. -/
  views : Fin 2 → XrView
  /-- validity flags of the located views. -/
  viewState : ViewState
  /-- `xrLocateSpace(m_input.aimSpace[hand], m_appSpace, ...)` per hand. -/
  handLoc : Fin 2 → SpaceLocation
  /-- `m_input.handActive` per hand (set by the previous `PollActions`). -/
  handActive : Fin 2 → Bool
  /-- pose of `xrLocateSpace(m_ViewSpace, m_appSpace, ...)`. -/
  headLoc : XrPosef
  linearVelocity : XrVector3f
  angularVelocity : XrVector3f
  /-- result of `m_cloudxr->LatchFrame(&framesLatched)`: `some` of the filled
  structure when it returned true, `none` when no frame was available. -/
  latched : Option cxrFramesLatched

/-- What one `RenderLayer` call produces. -/
structure RenderLayerOutput where
  projectionLayerViews : Fin 2 → CompositionLayerProjectionView
  handPose : List XrPosef
  trace : List REvent
  retval : Bool

/-- One iteration of the hand loop in `RenderLayer`: push the located pose
when the locate call succeeded with both validity bits set, otherwise log
(only when the hand was active) and keep the list unchanged. -/
def handPoseStep (inp : RenderLayerInput) (acc : List XrPosef × List REvent)
    (hand : Fin 2) : List XrPosef × List REvent :=
  let l := inp.handLoc hand
  if l.unqualifiedSuccess then
    if l.positionValid && l.orientationValid then
      (acc.1 ++ [l.pose], acc.2)
    else
      (acc.1, acc.2)
  else
    (acc.1, if inp.handActive hand then acc.2 ++ [.logHandLocateFail hand] else acc.2)

/-- Per-eye body of the swapchain loop: acquire, wait, render (consuming the
latched frame's texture for that eye), release. -/
def eyeTrace (framesLatched : cxrFramesLatched) (i : Fin 2) : List REvent :=
  [.acquireImage i, .waitImage i, .renderView i (framesLatched.frames i).texture,
   .releaseImage i]

/-- `OpenXrProgram::RenderLayer`.  `cxrToQuaternion` and `cxrGetTranslation`
are methods of the external CloudXR client (not under `src/`), so the
embedding is parametric in them: it only forwards the decoded values exactly
as the source does. -/
def renderLayer (cxrToQuaternion : cxrMatrix34 → XrQuaternionf)
    (cxrGetTranslation : cxrMatrix34 → XrVector3f)
    (inp : RenderLayerInput) : RenderLayerOutput :=
  let hp := handPoseStep inp (handPoseStep inp ([], []) 0) 1
  let framevaild := inp.latched.isSome
  let framesLatched := inp.latched.getD cxrFramesLatched.zeroInit
  let defaultPose : Fin 2 → XrPosef := fun i => (inp.views i).pose
  let pose : Fin 2 → XrPosef :=
    if framevaild then
      let orientation := cxrToQuaternion framesLatched.poseMatrix
      let position := cxrGetTranslation framesLatched.poseMatrix
      fun i => { defaultPose i with position := position, orientation := orientation }
    else
      defaultPose
  let projectionLayerViews : Fin 2 → CompositionLayerProjectionView :=
    fun i => { pose := pose i, fov := (inp.views i).fov, swapchainEye := i }
  { projectionLayerViews := projectionLayerViews
    handPose := hp.1
    trace :=
      hp.2 ++ [.setSenserPoseState inp.headLoc hp.1.length, .latchFrame]
        ++ (if framevaild then [] else [.logNoFrame])
        ++ eyeTrace framesLatched 0 ++ eyeTrace framesLatched 1
        ++ (if framevaild then [.releaseFrame] else [])
    retval := true }

/-- The external data consumed by one `RenderFrame` call. -/
structure RenderFrameInput where
  /-- `frameState.shouldRender` from `xrWaitFrame`. -/
  shouldRender : Bool
  rl : RenderLayerInput

/-- What one `RenderFrame` call produces. -/
structure RenderFrameOutput where
  layerCount : Nat
  trace : List REvent

/-- `OpenXrProgram::RenderFrame`: wait, begin, optionally render the layer,
end the frame with the accumulated layers. -/
def renderFrame (cxrToQuaternion : cxrMatrix34 → XrQuaternionf)
    (cxrGetTranslation : cxrMatrix34 → XrVector3f)
    (fi : RenderFrameInput) : RenderFrameOutput :=
  if fi.shouldRender then
    let r := renderLayer cxrToQuaternion cxrGetTranslation fi.rl
    { layerCount := if r.retval then 1 else 0
      trace := [.waitFrame, .beginFrame] ++ r.trace ++ [.endFrame] }
  else
    { layerCount := 0
      trace := [.waitFrame, .beginFrame, .endFrame] }

/-! Concrete sample data used by witnesses and counterexamples. -/

/-- A sample quaternion decoder standing in for `cxrToQuaternion`. -/
def decQ : cxrMatrix34 → XrQuaternionf := fun _ => ⟨0, 0, 0, 1⟩

/-- A sample translation decoder standing in for `cxrGetTranslation`
(reads the fourth column). -/
def decT : cxrMatrix34 → XrVector3f := fun m => ⟨m.m03, m.m13, m.m23⟩

/-- A sample pose distinct from the identity pose. -/
def samplePose : XrPosef := ⟨⟨1, 0, 0, 0⟩, ⟨2, 3, 4⟩⟩

/-- A second sample pose. -/
def samplePose2 : XrPosef := ⟨⟨0, 1, 0, 0⟩, ⟨5, 6, 7⟩⟩

/-- Sample located views. -/
def sampleViews : Fin 2 → XrView :=
  ![⟨samplePose, ⟨-1, 1, 1, -1⟩⟩, ⟨samplePose2, ⟨-1, 1, 1, -1⟩⟩]

/-- A sample latched-frames structure. -/
def sampleFrames : cxrFramesLatched :=
  { poseMatrix := ⟨1, 0, 0, 5, 0, 1, 0, 6, 0, 0, 1, 7⟩
    frame0 := ⟨11⟩
    frame1 := ⟨22⟩ }

/-- A hand locate result that succeeded with both validity bits set. -/
def sampleHandLocValid : SpaceLocation := ⟨true, true, true, samplePose⟩

/-- A hand locate result whose call did not return unqualified success. -/
def sampleHandLocFailed : SpaceLocation := ⟨false, false, false, ⟨⟨0, 0, 0, 1⟩, ⟨0, 0, 0⟩⟩⟩

/-- A render-layer input for a tick on which `LatchFrame` returned a frame. -/
def inpLatched : RenderLayerInput :=
  { views := sampleViews
    viewState := ⟨true, true⟩
    handLoc := fun _ => sampleHandLocFailed
    handActive := fun _ => false
    headLoc := samplePose
    linearVelocity := ⟨0, 0, 0⟩
    angularVelocity := ⟨0, 0, 0⟩
    latched := some sampleFrames }

/-- A render-layer input for a tick on which `LatchFrame` returned
not-available. -/
def inpNoFrame : RenderLayerInput :=
  { views := sampleViews
    viewState := ⟨true, true⟩
    handLoc := fun _ => sampleHandLocFailed
    handActive := fun _ => false
    headLoc := samplePose
    linearVelocity := ⟨0, 0, 0⟩
    angularVelocity := ⟨0, 0, 0⟩
    latched := none }

/-- A render-layer input whose view state has both validity bits unset. -/
def inpInvalidTracking : RenderLayerInput :=
  { views := sampleViews
    viewState := ⟨false, false⟩
    handLoc := fun _ => sampleHandLocFailed
    handActive := fun _ => false
    headLoc := samplePose
    linearVelocity := ⟨0, 0, 0⟩
    angularVelocity := ⟨0, 0, 0⟩
    latched := none }

/-- Tick N-1 input for the stale-pose question: the left hand's aim-pose
query is valid and yields `samplePose`; the right hand is untracked. -/
def inpHandTickPrev : RenderLayerInput :=
  { views := sampleViews
    viewState := ⟨true, true⟩
    handLoc := ![sampleHandLocValid, sampleHandLocFailed]
    handActive := ![true, false]
    headLoc := samplePose
    linearVelocity := ⟨0, 0, 0⟩
    angularVelocity := ⟨0, 0, 0⟩
    latched := none }

/-- Tick N input for the stale-pose question: the left hand's aim-pose query
is now invalid (the call failed), the right hand still untracked. -/
def inpHandTickCur : RenderLayerInput :=
  { views := sampleViews
    viewState := ⟨true, true⟩
    handLoc := ![sampleHandLocFailed, sampleHandLocFailed]
    handActive := ![true, false]
    headLoc := samplePose
    linearVelocity := ⟨0, 0, 0⟩
    angularVelocity := ⟨0, 0, 0⟩
    latched := none }

section RenderTheorems

/-- C1: for every tick on which LatchFrame returns a frame, RenderLayer
overrides both eyes' submitted projection-layer poses (position and
orientation) with the single head pose carried by that latched frame, decoded
from its poseMatrix, rather than the locally predicted per-eye view poses. -/
theorem C1_latched_pose_override
    (dq : cxrMatrix34 → XrQuaternionf) (dt : cxrMatrix34 → XrVector3f)
    (inp : RenderLayerInput) (fl : cxrFramesLatched)
    (h : inp.latched = some fl) (i : Fin 2) :
    ((renderLayer dq dt inp).projectionLayerViews i).pose
      = { orientation := dq fl.poseMatrix, position := dt fl.poseMatrix } := by
  simp [renderLayer, h]

/-- Witness for C1 at a concrete latched tick. -/
theorem C1_latched_pose_override_witness :
    ((renderLayer decQ decT inpLatched).projectionLayerViews 0).pose
        = { orientation := decQ sampleFrames.poseMatrix
            position := decT sampleFrames.poseMatrix }
      ∧ ((renderLayer decQ decT inpLatched).projectionLayerViews 1).pose
        = { orientation := decQ sampleFrames.poseMatrix
            position := decT sampleFrames.poseMatrix } :=
  ⟨C1_latched_pose_override decQ decT inpLatched sampleFrames rfl 0,
   C1_latched_pose_override decQ decT inpLatched sampleFrames rfl 1⟩

/-- C2: for every tick on which LatchFrame returns not-available, each eye's
submitted projection-layer pose equals the locally predicted view pose that
xrLocateViews returned for that eye. -/
theorem C2_fallback_local_pose
    (dq : cxrMatrix34 → XrQuaternionf) (dt : cxrMatrix34 → XrVector3f)
    (inp : RenderLayerInput) (h : inp.latched = none) (i : Fin 2) :
    ((renderLayer dq dt inp).projectionLayerViews i).pose = (inp.views i).pose := by
  simp [renderLayer, h]

/-- Witness for C2 at a concrete frame-less tick. -/
theorem C2_fallback_local_pose_witness :
    ((renderLayer decQ decT inpNoFrame).projectionLayerViews 0).pose
        = (inpNoFrame.views 0).pose
      ∧ ((renderLayer decQ decT inpNoFrame).projectionLayerViews 1).pose
        = (inpNoFrame.views 1).pose :=
  ⟨C2_fallback_local_pose decQ decT inpNoFrame rfl 0,
   C2_fallback_local_pose decQ decT inpNoFrame rfl 1⟩

/-- The hand loop's contribution to the event trace is at most one log entry. -/
theorem handPoseStep_trace (inp : RenderLayerInput)
    (acc : List XrPosef × List REvent) (hand : Fin 2) :
    (handPoseStep inp acc hand).2 = acc.2
      ∨ (handPoseStep inp acc hand).2 = acc.2 ++ [.logHandLocateFail hand] := by
  by_cases h1 : (inp.handLoc hand).unqualifiedSuccess <;>
    by_cases h2 : (inp.handLoc hand).positionValid && (inp.handLoc hand).orientationValid <;>
      by_cases h3 : inp.handActive hand <;>
        simp [handPoseStep, h1, h2, h3]

/-- The hand loop never emits a `releaseFrame` event. -/
theorem handTrace_not_releaseFrame (inp : RenderLayerInput) :
    REvent.releaseFrame ∉ (handPoseStep inp (handPoseStep inp ([], []) 0) 1).2 := by
  rcases handPoseStep_trace inp ([], []) 0 with h0 | h0 <;>
    rcases handPoseStep_trace inp (handPoseStep inp ([], []) 0) 1 with h1 | h1 <;>
      simp [h1, h0]

/-- `isReleaseFrame` recognises exactly the `releaseFrame` event. -/
theorem isReleaseFrame_iff (e : REvent) :
    REvent.isReleaseFrame e = true ↔ e = REvent.releaseFrame := by
  cases e <;> simp [REvent.isReleaseFrame]

/-- The hand loop's trace counts zero `releaseFrame` events. -/
theorem handTrace_countP_zero (inp : RenderLayerInput) :
    List.countP REvent.isReleaseFrame
      (handPoseStep inp (handPoseStep inp ([], []) 0) 1).2 = 0 := by
  rw [List.countP_eq_zero]
  intro e he
  intro hque
  exact handTrace_not_releaseFrame inp (((isReleaseFrame_iff e).mp hque) ▸ he)

/-- C3: on every tick, ReleaseFrame is called exactly once iff LatchFrame
returned a frame on that tick; when it is called, it happens after both eyes'
RenderView calls consumed the frame's textures and immediately before the
frame is ended; on a not-available tick it is never called. -/
theorem C3_release_exactly_once
    (dq : cxrMatrix34 → XrQuaternionf) (dt : cxrMatrix34 → XrVector3f)
    (fi : RenderFrameInput) :
    ((renderFrame dq dt fi).trace.countP REvent.isReleaseFrame
        = if fi.shouldRender && fi.rl.latched.isSome then 1 else 0)
    ∧ (∀ fl, fi.shouldRender = true → fi.rl.latched = some fl →
        ∃ pre, (renderFrame dq dt fi).trace
            = pre ++ [REvent.releaseFrame, REvent.endFrame]
          ∧ REvent.renderView 0 (fl.frames 0).texture ∈ pre
          ∧ REvent.renderView 1 (fl.frames 1).texture ∈ pre
          ∧ REvent.releaseFrame ∉ pre) := by
  constructor
  · cases hs : fi.shouldRender
    · simp [renderFrame, hs, REvent.isReleaseFrame]
    · rcases hl : fi.rl.latched with _ | fl <;>
        simp [renderFrame, renderLayer, hs, hl, eyeTrace, List.countP_append,
          List.countP_cons, REvent.isReleaseFrame, handTrace_countP_zero]
  · intro fl hs hfl
    refine ⟨[.waitFrame, .beginFrame]
        ++ (handPoseStep fi.rl (handPoseStep fi.rl ([], []) 0) 1).2
        ++ [.setSenserPoseState fi.rl.headLoc
              (handPoseStep fi.rl (handPoseStep fi.rl ([], []) 0) 1).1.length,
            .latchFrame]
        ++ eyeTrace fl 0 ++ eyeTrace fl 1, ?_, ?_, ?_, ?_⟩
    · simp [renderFrame, renderLayer, hs, hfl, eyeTrace]
    · simp [eyeTrace]
    · simp [eyeTrace]
    · simp [eyeTrace, handTrace_not_releaseFrame fi.rl]

/-- A concrete `RenderFrame` input whose tick latched a frame. -/
def frameInputLatched : RenderFrameInput := ⟨true, inpLatched⟩

/-- Witness for C3 at a concrete latched tick. -/
theorem C3_release_exactly_once_witness :
    ∃ pre, (renderFrame decQ decT frameInputLatched).trace
        = pre ++ [REvent.releaseFrame, REvent.endFrame]
      ∧ REvent.renderView 0 (sampleFrames.frames 0).texture ∈ pre
      ∧ REvent.renderView 1 (sampleFrames.frames 1).texture ∈ pre
      ∧ REvent.releaseFrame ∉ pre :=
  (C3_release_exactly_once decQ decT frameInputLatched).2 sampleFrames rfl rfl

/-- C4: when both view-state validity bits are unset, RenderLayer does not
early-return: it still acquires, draws into and releases both eyes' swapchain
images, returns true, and a layer is submitted for that tick. -/
theorem C4_submits_under_invalid_tracking
    (dq : cxrMatrix34 → XrQuaternionf) (dt : cxrMatrix34 → XrVector3f)
    (fi : RenderFrameInput) (hs : fi.shouldRender = true)
    (hpv : fi.rl.viewState.positionValid = false)
    (hov : fi.rl.viewState.orientationValid = false) :
    (renderLayer dq dt fi.rl).retval = true
    ∧ (renderFrame dq dt fi).layerCount = 1
    ∧ ∀ i : Fin 2,
        REvent.acquireImage i ∈ (renderFrame dq dt fi).trace
        ∧ (∃ t, REvent.renderView i t ∈ (renderFrame dq dt fi).trace)
        ∧ REvent.releaseImage i ∈ (renderFrame dq dt fi).trace := by
  refine ⟨by simp [renderLayer], by simp [renderFrame, renderLayer, hs], ?_⟩
  intro i
  rcases hl : fi.rl.latched with _ | fl <;> fin_cases i <;>
    refine ⟨?_, ?_, ?_⟩ <;> simp [renderFrame, renderLayer, hs, hl, eyeTrace]

/-- A concrete `RenderFrame` input with both validity bits unset. -/
def frameInputInvalid : RenderFrameInput := ⟨true, inpInvalidTracking⟩

/-- Witness for C4 at a concrete invalid-tracking tick. -/
theorem C4_submits_under_invalid_tracking_witness :
    (renderLayer decQ decT frameInputInvalid.rl).retval = true
    ∧ (renderFrame decQ decT frameInputInvalid).layerCount = 1
    ∧ ∀ i : Fin 2,
        REvent.acquireImage i ∈ (renderFrame decQ decT frameInputInvalid).trace
        ∧ (∃ t, REvent.renderView i t ∈ (renderFrame decQ decT frameInputInvalid).trace)
        ∧ REvent.releaseImage i ∈ (renderFrame decQ decT frameInputInvalid).trace :=
  C4_submits_under_invalid_tracking decQ decT frameInputInvalid rfl rfl rfl

/-- C5 counterexample: on a tick where the left hand's aim-pose query was
valid the forwarded list holds its pose, but on the next tick, when the query
is invalid, the forwarded list is empty — the previous pose is not retained;
the hand is dropped from the list. -/
theorem C5_stale_pose_counterexample :
    (renderLayer decQ decT inpHandTickPrev).handPose = [samplePose]
    ∧ (renderLayer decQ decT inpHandTickCur).handPose = []
    ∧ samplePose ∉ (renderLayer decQ decT inpHandTickCur).handPose := by
  refine ⟨?_, ?_, ?_⟩ <;> decide

/-- C5 amended: when a hand's aim-pose query is invalid on a tick, the hand
is dropped from the forwarded hand-pose list for that tick: the list contains
exactly the poses of the hands whose locate call succeeded with both validity
bits set this tick (left before right); no cached previous pose is retained
or substituted. -/
theorem C5_invalid_hand_dropped
    (dq : cxrMatrix34 → XrQuaternionf) (dt : cxrMatrix34 → XrVector3f)
    (inp : RenderLayerInput) :
    (renderLayer dq dt inp).handPose =
      (if (inp.handLoc 0).unqualifiedSuccess
          && ((inp.handLoc 0).positionValid && (inp.handLoc 0).orientationValid)
        then [(inp.handLoc 0).pose] else [])
      ++ (if (inp.handLoc 1).unqualifiedSuccess
          && ((inp.handLoc 1).positionValid && (inp.handLoc 1).orientationValid)
        then [(inp.handLoc 1).pose] else []) := by
  simp only [renderLayer, handPoseStep]
  split_ifs <;> simp_all

end RenderTheorems

/-! Session state machine: `PollEvents` / `HandleSessionStateChangedEvent`. -/

/-- XrSessionState. -/
inductive XrSessionState where
  | unknown
  | idle
  | ready
  | synchronized
  | visible
  | focused
  | stopping
  | lossPending
  | exiting
deriving DecidableEq

/-- The session calls the handler issues (`xrBeginSession` / `xrEndSession`). -/
inductive SessionAction where
  | beginSession
  | endSession
deriving DecidableEq

/-- The program state the event handlers read and mutate: the owned session
handle (0 = `XR_NULL_HANDLE`), `m_sessionState` and `m_sessionRunning`. -/
structure ProgState where
  session : Nat
  sessionState : XrSessionState
  sessionRunning : Bool
deriving DecidableEq

/-- The events `PollEvents` dispatches on. -/
inductive XrEvent where
  | instanceLossPending
  | sessionStateChanged (session : Nat) (newState : XrSessionState)
  | controllerStateChanged
  | interactionProfileChanged
  | other
deriving DecidableEq

/-- Result of a poll: the mutated program state, the two output flags, and
the session actions issued.  `none` models a fatal `CHECK` failure. -/
structure PollResult where
  state : ProgState
  exitRenderLoop : Bool
  requestRestart : Bool
  actions : List SessionAction
deriving DecidableEq

/-- `OpenXrProgram::HandleSessionStateChangedEvent`.  Note the source stores
the event's state into `m_sessionState` before checking the session handle. -/
def handleSessionStateChangedEvent (st : ProgState) (evSession : Nat)
    (newState : XrSessionState) (exitRenderLoop requestRestart : Bool) :
    Option PollResult :=
  let st1 := { st with sessionState := newState }
  if evSession ≠ 0 ∧ evSession ≠ st.session then
    some { state := st1, exitRenderLoop := exitRenderLoop
           requestRestart := requestRestart, actions := [] }
  else
    match newState with
    | .ready =>
        if st.session = 0 then none
        else some { state := { st1 with sessionRunning := true }
                    exitRenderLoop := exitRenderLoop
                    requestRestart := requestRestart
                    actions := [.beginSession] }
    | .stopping =>
        if st.session = 0 then none
        else some { state := { st1 with sessionRunning := false }
                    exitRenderLoop := exitRenderLoop
                    requestRestart := requestRestart
                    actions := [.endSession] }
    | .exiting =>
        some { state := st1, exitRenderLoop := true
               requestRestart := false, actions := [] }
    | .lossPending =>
        some { state := st1, exitRenderLoop := true
               requestRestart := true, actions := [] }
    | _ =>
        some { state := st1, exitRenderLoop := exitRenderLoop
               requestRestart := requestRestart, actions := [] }

/-- The event-drain loop of `PollEvents`: an instance-loss-pending event sets
both flags and returns immediately; a session-state-changed event is handled;
all other events are logged and skipped. -/
def pollEventsLoop : ProgState → Bool → Bool → List SessionAction → List XrEvent →
    Option PollResult
  | st, e, r, acts, [] => some ⟨st, e, r, acts⟩
  | st, e, r, acts, ev :: rest =>
    match ev with
    | .instanceLossPending => some ⟨st, true, true, acts⟩
    | .sessionStateChanged s ns =>
      match handleSessionStateChangedEvent st s ns e r with
      | none => none
      | some res =>
        pollEventsLoop res.state res.exitRenderLoop res.requestRestart
          (acts ++ res.actions) rest
    | _ => pollEventsLoop st e r acts rest

/-- `OpenXrProgram::PollEvents`: both output flags start false, then the
pending event queue is drained. -/
def pollEvents (st : ProgState) (queue : List XrEvent) : Option PollResult :=
  pollEventsLoop st false false [] queue

section SessionTheorems

/-- C6: PollEvents sets exitRenderLoop=true, requestRestart=false on a
session state-changed event carrying state exiting; exitRenderLoop=true,
requestRestart=true on state loss-pending; and on a top-level
instance-loss-pending event sets both flags true without updating the stored
SessionState. -/
theorem C6_exit_restart_flags (st : ProgState) (s : Nat)
    (hs : s = 0 ∨ s = st.session) :
    pollEvents st [.sessionStateChanged s .exiting]
        = some ⟨{ st with sessionState := .exiting }, true, false, []⟩
    ∧ pollEvents st [.sessionStateChanged s .lossPending]
        = some ⟨{ st with sessionState := .lossPending }, true, true, []⟩
    ∧ pollEvents st [.instanceLossPending] = some ⟨st, true, true, []⟩ := by
  have hcond : ¬(s ≠ 0 ∧ s ≠ st.session) := by
    rcases hs with h | h <;> simp [h]
  refine ⟨?_, ?_, ?_⟩ <;>
    simp [pollEvents, pollEventsLoop, handleSessionStateChangedEvent, hcond]

/-- Witness for C6 at a concrete state and a null event session handle. -/
theorem C6_exit_restart_flags_witness :
    pollEvents ⟨7, .focused, true⟩ [.sessionStateChanged 0 .exiting]
        = some ⟨⟨7, .exiting, true⟩, true, false, []⟩
    ∧ pollEvents ⟨7, .focused, true⟩ [.sessionStateChanged 0 .lossPending]
        = some ⟨⟨7, .lossPending, true⟩, true, true, []⟩
    ∧ pollEvents ⟨7, .focused, true⟩ [.instanceLossPending]
        = some ⟨⟨7, .focused, true⟩, true, true, []⟩ :=
  C6_exit_restart_flags ⟨7, .focused, true⟩ 0 (Or.inl rfl)

/-- C7 counterexample: a state-changed event for a foreign session handle
(2, while the owned session is 1) sets no flags and issues no session action,
but the stored SessionState is updated from idle to the event's state exiting
— it is not left unchanged as the claim states. -/
theorem C7_foreign_session_counterexample :
    pollEvents ⟨1, .idle, false⟩ [.sessionStateChanged 2 .exiting]
        = some ⟨⟨1, .exiting, false⟩, false, false, []⟩
    ∧ XrSessionState.exiting ≠ XrSessionState.idle := by
  refine ⟨?_, ?_⟩ <;> decide

/-- C7 amended: a session-state-changed event whose session handle is
non-null and differs from the owned session is logged and causes no
begin/end-session action, leaves the session-running flag unchanged and does
not set the output flags; the stored SessionState, however, is updated to the
event's state (the assignment precedes the handle check). -/
theorem C7_foreign_session_ignored (st : ProgState) (s : Nat)
    (ns : XrSessionState) (h0 : s ≠ 0) (h1 : s ≠ st.session) :
    pollEvents st [.sessionStateChanged s ns]
      = some ⟨{ st with sessionState := ns }, false, false, []⟩ := by
  simp [pollEvents, pollEventsLoop, handleSessionStateChangedEvent, h0, h1]

/-- Witness for the amended C7 at a concrete foreign-session event. -/
theorem C7_foreign_session_ignored_witness :
    pollEvents ⟨1, .focused, true⟩ [.sessionStateChanged 2 .ready]
      = some ⟨⟨1, .ready, true⟩, false, false, []⟩ :=
  C7_foreign_session_ignored ⟨1, .focused, true⟩ 2 .ready
    (by decide) (by decide)

end SessionTheorems

/-! Input relay: `PollActions`.  The CloudXR enum headers are external to
`src/`, so the named analog slots and button bits are modelled from the spec
as distinct indices (only their distinctness matters to the logic). -/

/-- Modelled from the spec: analog slot of the trigger value in
`scalarComps` (the `cxrAnalogComps` enum is in the external CloudXR header). -/
def cxrAnalog_Trigger : Nat := 0

/-- Modelled from the spec: analog slot of the joystick X value. -/
def cxrAnalog_JoystickX : Nat := 1

/-- Modelled from the spec: analog slot of the joystick Y value. -/
def cxrAnalog_JoystickY : Nat := 2

/-- Modelled from the spec: analog slot of the grip value. -/
def cxrAnalog_Grip : Nat := 3

/-- Modelled from the spec: bit index of the System/home button in
`booleanComps` (the `cxrButtonId` enum is in the external CloudXR header). -/
def cxrButton_System : Nat := 0

/-- Modelled from the spec: bit index of the trigger-touch control. -/
def cxrButton_Trigger_Touch : Nat := 1

/-- Modelled from the spec: bit index of the A button. -/
def cxrButton_A : Nat := 2

/-- Modelled from the spec: bit index of the B button. -/
def cxrButton_B : Nat := 3

/-- Modelled from the spec: bit index of the X button. -/
def cxrButton_X : Nat := 4

/-- Modelled from the spec: bit index of the Y button. -/
def cxrButton_Y : Nat := 5

/-- One controller's slice of `cxrVRTrackingState`: the button bitmask and
the analog slots. -/
structure cxrController where
  booleanComps : Nat
  scalarComps : Nat → Rat

/-- `cxrVRTrackingState`, reduced to the fields `PollActions` writes. -/
structure cxrVRTrackingState where
  controller : Fin 2 → cxrController

/-- `XrActionStateBoolean`. -/
structure XrActionStateBoolean where
  isActive : Bool
  changedSinceLastSync : Bool
  currentState : Bool
deriving DecidableEq

/-- `XrActionStateFloat`; the float value modelled as a rational. -/
structure XrActionStateFloat where
  isActive : Bool
  currentState : Rat
deriving DecidableEq

/-- `XrActionStateVector2f`. -/
structure XrActionStateVector2f where
  isActive : Bool
  x : Rat
  y : Rat
deriving DecidableEq

/-- `XrActionStatePose`. -/
structure XrActionStatePose where
  isActive : Bool
deriving DecidableEq

/-- All action states `xrGetActionState*` returns for one hand during one
`PollActions` tick, in query order. -/
structure HandActionStates where
  grabValue : XrActionStateFloat
  quitValue : XrActionStateBoolean
  touchpadValue : XrActionStateBoolean
  homeValue : XrActionStateBoolean
  backValue : XrActionStateBoolean
  sideValue : XrActionStateBoolean
  triggerValue : XrActionStateFloat
  joystickValue : XrActionStateVector2f
  batteryValue : XrActionStateFloat
  rockerTouch : XrActionStateBoolean
  triggerTouch : XrActionStateBoolean
  thumbrestTouch : XrActionStateBoolean
  gripValue : XrActionStateFloat
  bValue : XrActionStateBoolean
  yValue : XrActionStateBoolean
  aValue : XrActionStateBoolean
  xValue : XrActionStateBoolean
  aTouch : XrActionStateBoolean
  xTouch : XrActionStateBoolean
  bTouch : XrActionStateBoolean
  yTouch : XrActionStateBoolean
  poseState : XrActionStatePose
deriving DecidableEq

/-- The `m_input` fields `PollActions` mutates. -/
structure InputState where
  handScale : Fin 2 → Rat
  handXYPos : Fin 2 → Rat × Rat
  handActive : Fin 2 → Bool

/-- What one iteration of the hand loop in `PollActions` produces for its
hand: the freshly built controller slice of the tracking snapshot, the
back-release contribution to the return value, the updated `m_input` fields,
and the side effects (haptic vibration, `xrRequestExitSession`). -/
structure HandPollResult where
  controller : cxrController
  ret : Bool
  handScale : Rat
  handXY : Rat × Rat
  handActive : Bool
  hapticApplied : Bool
  exitSessionRequested : Bool

/-- One iteration of the hand loop in `PollActions`, in source order.  The
controller slice starts zero-initialised (`cxrVRTrackingState trackingState{}`
is a fresh local each tick). -/
def pollActionsHand (a : HandActionStates) (scale0 : Rat) (xy0 : Rat × Rat) :
    HandPollResult :=
  let scale1 := if a.grabValue.isActive
    then 1 - (1/2 : Rat) * a.grabValue.currentState else scale0
  let haptic := a.grabValue.isActive && decide ((9/10 : Rat) < a.grabValue.currentState)
  let exitReq := a.quitValue.isActive && a.quitValue.changedSinceLastSync
    && a.quitValue.currentState
  let scale2 := if a.touchpadValue.isActive && a.touchpadValue.changedSinceLastSync then
      (if a.touchpadValue.currentState then ((1/100 : Rat) / (1/10 : Rat)) else 1)
    else scale1
  let bc1 : Nat := if a.homeValue.isActive then
      (if a.homeValue.changedSinceLastSync then
        (if a.homeValue.currentState then 0 ||| (1 <<< cxrButton_System) else 0)
      else 0)
    else 0
  let ret := if a.backValue.isActive && a.backValue.changedSinceLastSync then
      (if a.backValue.currentState then false else true)
    else false
  let scale3 := if a.sideValue.isActive && a.sideValue.changedSinceLastSync then
      (if a.sideValue.currentState then ((1/4 : Rat) / (1/10 : Rat)) else 1)
    else scale2
  let sc0 : Nat → Rat := fun _ => 0
  let sc1 := if a.triggerValue.isActive
    then Function.update sc0 cxrAnalog_Trigger a.triggerValue.currentState else sc0
  let xy1 := if a.joystickValue.isActive then (a.joystickValue.x, a.joystickValue.y) else xy0
  let sc2 := if a.joystickValue.isActive then
      Function.update (Function.update sc1 cxrAnalog_JoystickX a.joystickValue.x)
        cxrAnalog_JoystickY a.joystickValue.y
    else sc1
  let bc2 := if a.triggerTouch.isActive then
      (if a.triggerTouch.changedSinceLastSync && a.triggerTouch.currentState
        then bc1 ||| (1 <<< cxrButton_Trigger_Touch) else bc1)
    else bc1
  let sc3 := if a.gripValue.isActive
    then Function.update sc2 cxrAnalog_Grip a.gripValue.currentState else sc2
  let scale4 := if a.bValue.isActive && a.bValue.changedSinceLastSync then
      (if a.bValue.currentState then ((15/100 : Rat) / (1/10 : Rat)) else 1)
    else scale3
  let bc3 := if a.bValue.isActive && a.bValue.changedSinceLastSync then
      (if a.bValue.currentState then bc2 ||| (1 <<< cxrButton_B) else bc2)
    else bc2
  let scale5 := if a.yValue.isActive && a.yValue.changedSinceLastSync then
      (if a.yValue.currentState then ((15/100 : Rat) / (1/10 : Rat)) else 1)
    else scale4
  let bc4 := if a.yValue.isActive && a.yValue.changedSinceLastSync then
      (if a.yValue.currentState then bc3 ||| (1 <<< cxrButton_Y) else bc3)
    else bc3
  let scale6 := if a.aValue.isActive && a.aValue.changedSinceLastSync then
      (if a.aValue.currentState then ((5/100 : Rat) / (1/10 : Rat)) else 1)
    else scale5
  let bc5 := if a.aValue.isActive && a.aValue.changedSinceLastSync then
      (if a.aValue.currentState then bc4 ||| (1 <<< cxrButton_A) else bc4)
    else bc4
  let scale7 := if a.xValue.isActive && a.xValue.changedSinceLastSync then
      (if a.xValue.currentState then ((5/100 : Rat) / (1/10 : Rat)) else 1)
    else scale6
  let bc6 := if a.xValue.isActive && a.xValue.changedSinceLastSync then
      (if a.xValue.currentState then bc5 ||| (1 <<< cxrButton_X) else bc5)
    else bc5
  { controller := { booleanComps := bc6, scalarComps := sc3 }
    ret := ret
    handScale := scale7
    handXY := xy1
    handActive := a.poseState.isActive
    hapticApplied := haptic
    exitSessionRequested := exitReq }

/-- What one `PollActions` call produces. -/
structure PollActionsResult where
  ret : Bool
  trackingState : cxrVRTrackingState
  input : InputState
  sentTrackingState : Option cxrVRTrackingState

/-- `OpenXrProgram::PollActions`: sync actions, run the hand loop for LEFT
then RIGHT over a zero-initialised fresh `cxrVRTrackingState`, then forward
the snapshot to the CloudXR client when one exists. -/
def pollActions (prev : InputState) (hands : Fin 2 → HandActionStates)
    (cloudxrPresent : Bool) : PollActionsResult :=
  let l := pollActionsHand (hands 0) (prev.handScale 0) (prev.handXYPos 0)
  let r := pollActionsHand (hands 1) (prev.handScale 1) (prev.handXYPos 1)
  let ts : cxrVRTrackingState := ⟨![l.controller, r.controller]⟩
  { ret := l.ret || r.ret
    trackingState := ts
    input := { handScale := ![l.handScale, r.handScale]
               handXYPos := ![l.handXY, r.handXY]
               handActive := ![l.handActive, r.handActive] }
    sentTrackingState := if cloudxrPresent then some ts else none }

section InputTheorems

/-- A bit test through one `bc |= 1 << k`-under-two-guards step. -/
theorem testBit_maskStep (c1 c2 : Bool) (x k b : Nat) :
    Nat.testBit (if c1 then (if c2 then x ||| (1 <<< k) else x) else x) b
      = (Nat.testBit x b || (c1 && c2 && decide (k = b))) := by
  cases c1 <;> cases c2 <;>
    simp [Nat.testBit_or, Nat.one_shiftLeft, Nat.testBit_two_pow]

/-- A bit test through the home-button step, which starts from the
zero-initialised mask under three nested guards. -/
theorem testBit_homeStep (c1 c2 c3 : Bool) (k b : Nat) :
    Nat.testBit
        (if c1 then (if c2 then (if c3 then 0 ||| (1 <<< k) else 0) else 0) else 0) b
      = (c1 && c2 && c3 && decide (k = b)) := by
  cases c1 <;> cases c2 <;> cases c3 <;>
    simp [Nat.testBit_or, Nat.one_shiftLeft, Nat.testBit_two_pow]

/-- Rising-edge characterisation of the button bitmask built by one hand-loop
iteration: each button's bit is set exactly when that control was sampled
active, changed-since-last-sync and pressed on this tick. -/
theorem pollActionsHand_booleanComps (a : HandActionStates) (s : Rat)
    (xy : Rat × Rat) :
    ((pollActionsHand a s xy).controller.booleanComps.testBit cxrButton_System
        = (a.homeValue.isActive && a.homeValue.changedSinceLastSync
            && a.homeValue.currentState))
    ∧ ((pollActionsHand a s xy).controller.booleanComps.testBit cxrButton_Trigger_Touch
        = (a.triggerTouch.isActive
            && (a.triggerTouch.changedSinceLastSync && a.triggerTouch.currentState)))
    ∧ ((pollActionsHand a s xy).controller.booleanComps.testBit cxrButton_A
        = ((a.aValue.isActive && a.aValue.changedSinceLastSync) && a.aValue.currentState))
    ∧ ((pollActionsHand a s xy).controller.booleanComps.testBit cxrButton_B
        = ((a.bValue.isActive && a.bValue.changedSinceLastSync) && a.bValue.currentState))
    ∧ ((pollActionsHand a s xy).controller.booleanComps.testBit cxrButton_X
        = ((a.xValue.isActive && a.xValue.changedSinceLastSync) && a.xValue.currentState))
    ∧ ((pollActionsHand a s xy).controller.booleanComps.testBit cxrButton_Y
        = ((a.yValue.isActive && a.yValue.changedSinceLastSync) && a.yValue.currentState)) := by
  refine ⟨?_, ?_, ?_, ?_, ?_, ?_⟩ <;>
    · simp only [pollActionsHand]
      simp only [testBit_maskStep, testBit_homeStep]
      simp [cxrButton_System, cxrButton_Trigger_Touch, cxrButton_A, cxrButton_B,
        cxrButton_X, cxrButton_Y, Bool.and_assoc]

/-- The tracking snapshot's controller slice for hand `h` is exactly what
that hand's loop iteration built. -/
theorem pollActions_controller (prev : InputState) (hands : Fin 2 → HandActionStates)
    (cloudxrPresent : Bool) (h : Fin 2) :
    (pollActions prev hands cloudxrPresent).trackingState.controller h
      = (pollActionsHand (hands h) (prev.handScale h) (prev.handXYPos h)).controller := by
  fin_cases h <;> simp [pollActions]

/-- The return value of `PollActions` is the OR of the two hands' back-button
release-edge tests. -/
theorem pollActionsHand_ret (a : HandActionStates) (s : Rat) (xy : Rat × Rat) :
    (pollActionsHand a s xy).ret
      = (a.backValue.isActive && a.backValue.changedSinceLastSync
          && !a.backValue.currentState) := by
  cases h1 : a.backValue.isActive <;> cases h2 : a.backValue.changedSinceLastSync <;>
    cases h3 : a.backValue.currentState <;> simp [pollActionsHand, h1, h2, h3]

/-- An inactive control leaves its slice of the freshly zero-initialised
snapshot at zero. -/
theorem pollActionsHand_inactive (a : HandActionStates) (s : Rat) (xy : Rat × Rat) :
    (a.triggerValue.isActive = false →
        (pollActionsHand a s xy).controller.scalarComps cxrAnalog_Trigger = 0)
    ∧ (a.joystickValue.isActive = false →
        (pollActionsHand a s xy).controller.scalarComps cxrAnalog_JoystickX = 0
        ∧ (pollActionsHand a s xy).controller.scalarComps cxrAnalog_JoystickY = 0)
    ∧ (a.gripValue.isActive = false →
        (pollActionsHand a s xy).controller.scalarComps cxrAnalog_Grip = 0)
    ∧ (a.homeValue.isActive = false →
        (pollActionsHand a s xy).controller.booleanComps.testBit cxrButton_System = false)
    ∧ (a.triggerTouch.isActive = false →
        (pollActionsHand a s xy).controller.booleanComps.testBit cxrButton_Trigger_Touch
          = false)
    ∧ (a.bValue.isActive = false →
        (pollActionsHand a s xy).controller.booleanComps.testBit cxrButton_B = false)
    ∧ (a.yValue.isActive = false →
        (pollActionsHand a s xy).controller.booleanComps.testBit cxrButton_Y = false)
    ∧ (a.aValue.isActive = false →
        (pollActionsHand a s xy).controller.booleanComps.testBit cxrButton_A = false)
    ∧ (a.xValue.isActive = false →
        (pollActionsHand a s xy).controller.booleanComps.testBit cxrButton_X = false) := by
  obtain ⟨hS, hT, hA, hB, hX, hY⟩ := pollActionsHand_booleanComps a s xy
  refine ⟨?_, ?_, ?_, ?_, ?_, ?_, ?_, ?_, ?_⟩
  · intro hx
    cases hj : a.joystickValue.isActive <;> cases hg : a.gripValue.isActive <;>
      simp [pollActionsHand, hx, hj, hg, Function.update, cxrAnalog_Trigger,
        cxrAnalog_JoystickX, cxrAnalog_JoystickY, cxrAnalog_Grip]
  · intro hx
    cases ht : a.triggerValue.isActive <;> cases hg : a.gripValue.isActive <;>
      simp [pollActionsHand, hx, ht, hg, Function.update, cxrAnalog_Trigger,
        cxrAnalog_JoystickX, cxrAnalog_JoystickY, cxrAnalog_Grip]
  · intro hx
    cases ht : a.triggerValue.isActive <;> cases hj : a.joystickValue.isActive <;>
      simp [pollActionsHand, hx, ht, hj, Function.update, cxrAnalog_Trigger,
        cxrAnalog_JoystickX, cxrAnalog_JoystickY, cxrAnalog_Grip]
  · intro hx
    rw [hS]
    simp [hx]
  · intro hx
    rw [hT]
    simp [hx]
  · intro hx
    rw [hB]
    simp [hx]
  · intro hx
    rw [hY]
    simp [hx]
  · intro hx
    rw [hA]
    simp [hx]
  · intro hx
    rw [hX]
    simp [hx]

/-- C8: each boolean button control that sets a bitmask bit in the tracking
snapshot (home/System, A, B, X, Y, trigger-touch) sets it exactly on a rising
edge — active, changed-since-last-sync and pressed on this tick; on a
following tick where the state stays true but changed-since-last-sync is
false, the freshly built snapshot's bit is unset again. -/
theorem C8_rising_edge_bitmask (prev : InputState) (hands : Fin 2 → HandActionStates)
    (cloudxrPresent : Bool) (h : Fin 2) :
    (((pollActions prev hands cloudxrPresent).trackingState.controller h).booleanComps.testBit
          cxrButton_System
        = ((hands h).homeValue.isActive && (hands h).homeValue.changedSinceLastSync
            && (hands h).homeValue.currentState))
    ∧ (((pollActions prev hands cloudxrPresent).trackingState.controller h).booleanComps.testBit
          cxrButton_Trigger_Touch
        = ((hands h).triggerTouch.isActive
            && ((hands h).triggerTouch.changedSinceLastSync
              && (hands h).triggerTouch.currentState)))
    ∧ (((pollActions prev hands cloudxrPresent).trackingState.controller h).booleanComps.testBit
          cxrButton_A
        = (((hands h).aValue.isActive && (hands h).aValue.changedSinceLastSync)
            && (hands h).aValue.currentState))
    ∧ (((pollActions prev hands cloudxrPresent).trackingState.controller h).booleanComps.testBit
          cxrButton_B
        = (((hands h).bValue.isActive && (hands h).bValue.changedSinceLastSync)
            && (hands h).bValue.currentState))
    ∧ (((pollActions prev hands cloudxrPresent).trackingState.controller h).booleanComps.testBit
          cxrButton_X
        = (((hands h).xValue.isActive && (hands h).xValue.changedSinceLastSync)
            && (hands h).xValue.currentState))
    ∧ (((pollActions prev hands cloudxrPresent).trackingState.controller h).booleanComps.testBit
          cxrButton_Y
        = (((hands h).yValue.isActive && (hands h).yValue.changedSinceLastSync)
            && (hands h).yValue.currentState)) := by
  simp only [pollActions_controller]
  exact pollActionsHand_booleanComps (hands h) (prev.handScale h) (prev.handXYPos h)

/-- C9: PollActions returns true exactly when a back-button release edge is
observed during this tick's sync (active, changed-since-last-sync, and
current state false) on either hand — so the signal fires on the release
edge, never on the press edge, and at most once per press/release cycle. -/
theorem C9_back_release_edge (prev : InputState) (hands : Fin 2 → HandActionStates)
    (cloudxrPresent : Bool) :
    (pollActions prev hands cloudxrPresent).ret
      = (((hands 0).backValue.isActive && (hands 0).backValue.changedSinceLastSync
            && !(hands 0).backValue.currentState)
        || ((hands 1).backValue.isActive && (hands 1).backValue.changedSinceLastSync
            && !(hands 1).backValue.currentState)) := by
  simp [pollActions, pollActionsHand_ret]

/-- A boolean action state sampled inactive. -/
def boolInactive : XrActionStateBoolean := ⟨false, false, false⟩

/-- A hand whose controls are all sampled inactive this tick. -/
def handAllInactive : HandActionStates :=
  { grabValue := ⟨false, 0⟩
    quitValue := boolInactive
    touchpadValue := boolInactive
    homeValue := boolInactive
    backValue := boolInactive
    sideValue := boolInactive
    triggerValue := ⟨false, 0⟩
    joystickValue := ⟨false, 0, 0⟩
    batteryValue := ⟨false, 0⟩
    rockerTouch := boolInactive
    triggerTouch := boolInactive
    thumbrestTouch := boolInactive
    gripValue := ⟨false, 0⟩
    bValue := boolInactive
    yValue := boolInactive
    aValue := boolInactive
    xValue := boolInactive
    aTouch := boolInactive
    xTouch := boolInactive
    bTouch := boolInactive
    yTouch := boolInactive
    poseState := ⟨false⟩ }

/-- The same hand with only the trigger sampled active, at value 7/10. -/
def handTriggerActive : HandActionStates :=
  { handAllInactive with triggerValue := ⟨true, 7/10⟩ }

/-- The initial `m_input` mutable fields. -/
def inputStateInit : InputState := ⟨fun _ => 1, fun _ => (0, 0), fun _ => false⟩

/-- C10 counterexample: on a tick where the trigger is active at 7/10 the
forwarded snapshot carries 7/10, but on a following tick where the trigger is
sampled inactive the forwarded snapshot carries 0 — the snapshot is a fresh
zero-initialised local each tick (the source reads no previous snapshot at
all), so the prior value 7/10 is not retained. -/
theorem C10_inactive_zeroed_counterexample :
    (((pollActions inputStateInit (fun _ => handTriggerActive)
          true).trackingState.controller 0).scalarComps cxrAnalog_Trigger = 7/10)
    ∧ (((pollActions inputStateInit (fun _ => handAllInactive)
          true).trackingState.controller 0).scalarComps cxrAnalog_Trigger = 0)
    ∧ ((7/10 : Rat) ≠ 0) := by
  refine ⟨?_, ?_, by norm_num⟩ <;>
    simp [pollActions, pollActionsHand, handTriggerActive, handAllInactive,
      boolInactive, inputStateInit, Function.update, cxrAnalog_Trigger,
      cxrAnalog_JoystickX, cxrAnalog_JoystickY, cxrAnalog_Grip]

/-- C10 amended: a control whose action state is reported inactive on a tick
leaves its fields of that tick's TrackingSnapshot at the fresh snapshot's
zero-initialised defaults (scalar slots 0, bitmask bits unset); the snapshot
is rebuilt from zero each tick, so prior-tick values are not retained. -/
theorem C10_inactive_left_at_zero (prev : InputState)
    (hands : Fin 2 → HandActionStates) (cloudxrPresent : Bool) (h : Fin 2) :
    ((hands h).triggerValue.isActive = false →
        ((pollActions prev hands cloudxrPresent).trackingState.controller h).scalarComps
          cxrAnalog_Trigger = 0)
    ∧ ((hands h).joystickValue.isActive = false →
        ((pollActions prev hands cloudxrPresent).trackingState.controller h).scalarComps
          cxrAnalog_JoystickX = 0
        ∧ ((pollActions prev hands cloudxrPresent).trackingState.controller h).scalarComps
          cxrAnalog_JoystickY = 0)
    ∧ ((hands h).gripValue.isActive = false →
        ((pollActions prev hands cloudxrPresent).trackingState.controller h).scalarComps
          cxrAnalog_Grip = 0)
    ∧ ((hands h).homeValue.isActive = false →
        ((pollActions prev hands cloudxrPresent).trackingState.controller h).booleanComps.testBit
          cxrButton_System = false)
    ∧ ((hands h).triggerTouch.isActive = false →
        ((pollActions prev hands cloudxrPresent).trackingState.controller h).booleanComps.testBit
          cxrButton_Trigger_Touch = false)
    ∧ ((hands h).bValue.isActive = false →
        ((pollActions prev hands cloudxrPresent).trackingState.controller h).booleanComps.testBit
          cxrButton_B = false)
    ∧ ((hands h).yValue.isActive = false →
        ((pollActions prev hands cloudxrPresent).trackingState.controller h).booleanComps.testBit
          cxrButton_Y = false)
    ∧ ((hands h).aValue.isActive = false →
        ((pollActions prev hands cloudxrPresent).trackingState.controller h).booleanComps.testBit
          cxrButton_A = false)
    ∧ ((hands h).xValue.isActive = false →
        ((pollActions prev hands cloudxrPresent).trackingState.controller h).booleanComps.testBit
          cxrButton_X = false) := by
  simp only [pollActions_controller]
  exact pollActionsHand_inactive (hands h) (prev.handScale h) (prev.handXYPos h)

/-- Witness for the amended C10 at a concrete all-inactive tick. -/
theorem C10_inactive_left_at_zero_witness :
    (((pollActions inputStateInit (fun _ => handAllInactive)
          true).trackingState.controller 1).scalarComps cxrAnalog_Trigger = 0)
    ∧ (((pollActions inputStateInit (fun _ => handAllInactive)
          true).trackingState.controller 1).scalarComps cxrAnalog_JoystickX = 0
        ∧ ((pollActions inputStateInit (fun _ => handAllInactive)
          true).trackingState.controller 1).scalarComps cxrAnalog_JoystickY = 0)
    ∧ (((pollActions inputStateInit (fun _ => handAllInactive)
          true).trackingState.controller 1).scalarComps cxrAnalog_Grip = 0)
    ∧ (((pollActions inputStateInit (fun _ => handAllInactive)
          true).trackingState.controller 1).booleanComps.testBit cxrButton_System = false)
    ∧ (((pollActions inputStateInit (fun _ => handAllInactive)
          true).trackingState.controller 1).booleanComps.testBit cxrButton_Trigger_Touch
          = false)
    ∧ (((pollActions inputStateInit (fun _ => handAllInactive)
          true).trackingState.controller 1).booleanComps.testBit cxrButton_B = false)
    ∧ (((pollActions inputStateInit (fun _ => handAllInactive)
          true).trackingState.controller 1).booleanComps.testBit cxrButton_Y = false)
    ∧ (((pollActions inputStateInit (fun _ => handAllInactive)
          true).trackingState.controller 1).booleanComps.testBit cxrButton_A = false)
    ∧ (((pollActions inputStateInit (fun _ => handAllInactive)
          true).trackingState.controller 1).booleanComps.testBit cxrButton_X = false) :=
  ⟨(C10_inactive_left_at_zero inputStateInit (fun _ => handAllInactive) true 1).1 rfl,
   (C10_inactive_left_at_zero inputStateInit (fun _ => handAllInactive) true 1).2.1 rfl,
   (C10_inactive_left_at_zero inputStateInit (fun _ => handAllInactive) true 1).2.2.1 rfl,
   (C10_inactive_left_at_zero inputStateInit (fun _ => handAllInactive) true 1).2.2.2.1 rfl,
   (C10_inactive_left_at_zero inputStateInit (fun _ => handAllInactive) true 1).2.2.2.2.1 rfl,
   (C10_inactive_left_at_zero inputStateInit (fun _ => handAllInactive) true 1).2.2.2.2.2.1 rfl,
   (C10_inactive_left_at_zero inputStateInit (fun _ => handAllInactive) true 1).2.2.2.2.2.2.1 rfl,
   (C10_inactive_left_at_zero inputStateInit (fun _ => handAllInactive) true 1).2.2.2.2.2.2.2.1 rfl,
   (C10_inactive_left_at_zero inputStateInit (fun _ => handAllInactive) true 1).2.2.2.2.2.2.2.2 rfl⟩

end InputTheorems

end OpenXrClient
